import Mathlib

/-!
Verification of pyQParamWidget against its specification.

This file gives a shallow embedding of the repository's value-marshaling
convention (src/pyqparamwidget/qpw_widgets.py), the validated parameter
records (src/pyqparamwidget/param_item.py and the frozen dataclass in
src/pyqparamwidget/param_editor.py), and the two editor widgets
(`ParameterEditor` in src/pyQParamWidget/param_editor.py and
`ParameterEditorWidget` in src/pyqparamwidget/param_editor.py), and proves
the claims about them.

Python values flowing through the package are of type int, str or bool
(the parameter dataclass annotates its value field `(int, str)`, and
checkbox parameters carry bools), so the embedding's value universe is
`PyVal` below.  Qt widget state is embedded as the fields the code reads
and writes (check state, combo items and current text, spin range and
value, line-edit text), with the documented Qt behaviour of the setters
the code calls (a non-editable QComboBox ignores `setCurrentText` for a
text not among its items; QSpinBox clamps `setValue` to its range).
Python operations that raise (calling `None`, `int()` on a non-numeric
string, an int-typed Qt setter on a string) are embedded as `Option`.
-/

namespace PyQParamWidget

/-- The type of a Python value in this package: int, str or bool. -/
inductive PyType where
  | int : PyType
  | str : PyType
  | bool : PyType
deriving DecidableEq, Repr

/-- A Python value in this package: the parameter dataclasses annotate
`value : (int, str)` and checkbox parameters carry bools. -/
inductive PyVal where
  | int (n : Int) : PyVal
  | str (s : String) : PyVal
  | bool (b : Bool) : PyVal
deriving DecidableEq, Repr

/-- Python `type(v)`. -/
def PyVal.type : PyVal → PyType
  | .int _ => .int
  | .str _ => .str
  | .bool _ => .bool

/-- Python truthiness, as used by `2 if value else 0` in
`QPW_CheckBox.qpw_set`. -/
def pyTruthy : PyVal → Bool
  | .int n => n != 0
  | .str s => s != ""
  | .bool b => b

/-- The decimal digit character for `d < 10`. -/
def digitChar (d : Nat) : Char := Char.ofNat (48 + d)

/-- The numeric value of a decimal digit character. -/
def charVal (c : Char) : Nat := c.toNat - 48

/-- The decimal digits of `n`, least significant first, by fuel-bounded
recursion (`fuel ≥ n` suffices); structurally recursive so that concrete
witnesses evaluate inside the kernel. -/
def digitsRevAux : Nat → Nat → List Nat
  | _, 0 => []
  | 0, _+1 => []
  | fuel+1, n+1 => ((n+1) % 10) :: digitsRevAux fuel ((n+1) / 10)

theorem digitsRevAux_eq :
    ∀ (fuel n : Nat), n ≤ fuel → digitsRevAux fuel n = Nat.digits 10 n := by
  intro fuel
  induction fuel with
  | zero =>
      intro n h
      interval_cases n
      rw [Nat.digits_zero]; rfl
  | succ f ih =>
      intro n h
      cases n with
      | zero => rw [Nat.digits_zero]; rfl
      | succ m =>
          rw [digitsRevAux, Nat.digits_def' (by norm_num : (1:Nat) < 10) (Nat.succ_pos m)]
          congr 1
          exact ih _ (by
            have := Nat.div_lt_self (Nat.succ_pos m) (by norm_num : 1 < 10)
            omega)

/-- The decimal digit characters of `n`, most significant first
(empty for `n = 0`). -/
def natDecimal (n : Nat) : List Char := ((digitsRevAux n n).map digitChar).reverse

theorem natDecimal_eq (n : Nat) :
    natDecimal n = ((Nat.digits 10 n).map digitChar).reverse := by
  rw [natDecimal, digitsRevAux_eq n n le_rfl]

/-- Python `str(n)` for a natural number. -/
def pyStrOfNat (n : Nat) : String :=
  if n = 0 then "0" else String.mk (natDecimal n)

/-- Python `str(n)` for an int: a minus sign before the decimal digits of
the absolute value when `n` is negative. -/
def pyStrOfInt (n : Int) : String :=
  if n < 0 then "-" ++ pyStrOfNat n.natAbs else pyStrOfNat n.toNat

/-- Python `int(s)` on a string of decimal digits: the parsed value, or
`none` (a ValueError in Python) when `s` is empty or holds a non-digit.
(Python also strips whitespace and accepts a leading plus sign; no string
built by this package carries either.) -/
def pyParseNatChars (l : List Char) : Option Nat :=
  if l ≠ [] ∧ l.all Char.isDigit then
    some (Nat.ofDigits 10 ((l.map charVal).reverse))
  else none

/-- Python `int(s)` for an optionally minus-signed decimal string. -/
def pyParseInt (s : String) : Option Int :=
  if s.data.head? = some '-' then (pyParseNatChars s.data.tail).map (fun m => -(m : Int))
  else (pyParseNatChars s.data).map (fun m => (m : Int))

/-- Python `str(v)`. -/
def PyVal.pyStr : PyVal → String
  | .int n => pyStrOfInt n
  | .str s => s
  | .bool b => if b then "True" else "False"

/-- Converting a widget's native string to the remembered original type:
`original_type(text)` in `qpw_get` of `QPW_Choice` and `QPW_Text`.
`int()` of a non-numeric string raises ValueError, hence `Option`. -/
def convertStr : PyType → String → Option PyVal
  | .int, s => (pyParseInt s).map .int
  | .str, s => some (.str s)
  | .bool, s => some (.bool (s != ""))

/-- Converting a widget's native int to the remembered original type:
`original_type(n)` in `qpw_get` of `QPW_CheckBox` and `QPW_Index`. -/
def convertInt : PyType → Int → PyVal
  | .int, n => .int n
  | .str, n => .str (pyStrOfInt n)
  | .bool, n => .bool (n != 0)

/-- A PyQt int argument (for `setValue`, `setCheckState`): ints pass
through, bools coerce to 0/1, a string raises TypeError (`none`). -/
def pyAsIntArg : PyVal → Option Int
  | .int n => some n
  | .str _ => none
  | .bool b => some (if b then 1 else 0)

/-- Python `int(v)` as used by the validation code: ints pass through,
bools coerce, strings are parsed. -/
def pyInt : PyVal → Option Int
  | .int n => some n
  | .str s => pyParseInt s
  | .bool b => some (if b then 1 else 0)

theorem charVal_digitChar {d : Nat} (hd : d < 10) : charVal (digitChar d) = d := by
  interval_cases d <;> decide

theorem isDigit_digitChar {d : Nat} (hd : d < 10) : (digitChar d).isDigit = true := by
  interval_cases d <;> decide

theorem natDecimal_all_isDigit (n : Nat) : (natDecimal n).all Char.isDigit = true := by
  rw [List.all_eq_true]
  intro c hc
  rw [natDecimal_eq, List.mem_reverse, List.mem_map] at hc
  obtain ⟨d, hd, rfl⟩ := hc
  exact isDigit_digitChar (Nat.digits_lt_base (by norm_num) hd)

theorem map_charVal_natDecimal (n : Nat) :
    ((natDecimal n).map charVal).reverse = Nat.digits 10 n := by
  rw [natDecimal_eq, ← List.map_reverse, List.reverse_reverse, List.map_map]
  have : ∀ l : List Nat, (∀ d ∈ l, d < 10) → l.map (charVal ∘ digitChar) = l := by
    intro l hl
    induction l with
    | nil => rfl
    | cons a t ih =>
        simp only [List.map_cons, Function.comp_apply,
          charVal_digitChar (hl a (List.mem_cons_self a t))]
        rw [ih (fun d hd => hl d (List.mem_cons_of_mem a hd))]
  exact this _ (fun d hd => Nat.digits_lt_base (by norm_num) hd)

theorem pyParseNatChars_pyStrOfNat (n : Nat) :
    pyParseNatChars (pyStrOfNat n).data = some n := by
  by_cases h : n = 0
  · subst h; decide
  · rw [pyStrOfNat, if_neg h]
    have hne : natDecimal n ≠ [] := by
      rw [natDecimal_eq]
      simp only [ne_eq, List.reverse_eq_nil_iff, List.map_eq_nil_iff]
      exact Nat.digits_ne_nil_iff_ne_zero.mpr h
    rw [pyParseNatChars, if_pos ⟨hne, natDecimal_all_isDigit n⟩,
      map_charVal_natDecimal, Nat.ofDigits_digits]

theorem head_isDigit_pyStrOfNat (n : Nat) :
    (pyStrOfNat n).data ≠ [] ∧ ∀ c ∈ (pyStrOfNat n).data, c.isDigit = true := by
  have h := pyParseNatChars_pyStrOfNat n
  rw [pyParseNatChars] at h
  by_cases hc : (pyStrOfNat n).data ≠ [] ∧ ((pyStrOfNat n).data).all Char.isDigit
  · exact ⟨hc.1, fun c hmem => List.all_eq_true.mp hc.2 c hmem⟩
  · rw [if_neg hc] at h; exact absurd h (by simp)

theorem pyParseInt_pyStrOfInt (n : Int) : pyParseInt (pyStrOfInt n) = some n := by
  by_cases hn : n < 0
  · rw [pyStrOfInt, if_pos hn]
    have hdata : ("-" ++ pyStrOfNat n.natAbs).data = '-' :: (pyStrOfNat n.natAbs).data := rfl
    rw [pyParseInt, hdata]
    have habs : ((n.natAbs : Int)) = -n := Int.ofNat_natAbs_of_nonpos (le_of_lt hn)
    simp [pyParseNatChars_pyStrOfNat, habs]
  · rw [pyStrOfInt, if_neg hn]
    obtain ⟨hne, hdig⟩ := head_isDigit_pyStrOfNat n.toNat
    have hhead : ¬((pyStrOfNat n.toNat).data.head? = some '-') := by
      cases hd : (pyStrOfNat n.toNat).data with
      | nil => exact absurd hd hne
      | cons c rest =>
          have hcdig : c.isDigit = true :=
            hdig c (by rw [hd]; exact List.mem_cons_self c rest)
          simp only [List.head?_cons, Option.some.injEq]
          intro hcm; rw [hcm] at hcdig; exact absurd hcdig (by decide)
    rw [pyParseInt, if_neg hhead, pyParseNatChars_pyStrOfNat n.toNat]
    simp [Int.toNat_of_nonneg (not_lt.mp hn)]

/-! ### The widget classes of src/pyqparamwidget/qpw_widgets.py

Each structure holds the Qt state the class reads and writes plus the
`original_type` class/instance attribute. -/

/-- `QPW_CheckBox(QtWidgets.QCheckBox)`: the check state (0 unchecked,
2 checked; `original_type` is the class attribute `type(True)`). -/
structure QPW_CheckBox where
  checkState : Int
deriving DecidableEq, Repr

/-- `QPW_CheckBox.qpw_get`: `self.original_type(self.checkState())`,
i.e. `bool(checkState)`. -/
def QPW_CheckBox.qpw_get (w : QPW_CheckBox) : Option PyVal :=
  some (.bool (w.checkState != 0))

/-- `QPW_CheckBox.qpw_set`: `self.setCheckState(2 if value else 0)`. -/
def QPW_CheckBox.qpw_set (_w : QPW_CheckBox) (value : PyVal) : QPW_CheckBox :=
  ⟨if pyTruthy value then 2 else 0⟩

/-- `QPW_Choice(QtWidgets.QComboBox)`: the item list, the current text and
the `original_type` attribute (`None` until the first `qpw_set`). -/
structure QPW_Choice where
  items : List String
  currentText : String
  original_type : Option PyType
deriving DecidableEq, Repr

/-- Qt `QComboBox.setCurrentText` on a non-editable combo box: the current
text changes only when the text matches an item of the list. -/
def QPW_Choice.setCurrentText (w : QPW_Choice) (s : String) : QPW_Choice :=
  if s ∈ w.items then { w with currentText := s } else w

/-- `QPW_Choice.qpw_get`: `self.original_type(self.currentText())`;
calling a `None` type or `int()` on a non-numeric text raises. -/
def QPW_Choice.qpw_get (w : QPW_Choice) : Option PyVal :=
  w.original_type.bind (fun t => convertStr t w.currentText)

/-- `QPW_Choice.qpw_set`: remember `type(value)` on the first call, then
`self.setCurrentText(str(value))`. -/
def QPW_Choice.qpw_set (w : QPW_Choice) (value : PyVal) : QPW_Choice :=
  QPW_Choice.setCurrentText
    { w with original_type := some (w.original_type.getD value.type) } value.pyStr

/-- `QPW_Index(QtWidgets.QSpinBox)`: the range, the value and the
`original_type` attribute. -/
structure QPW_Index where
  lo : Int
  hi : Int
  value : Int
  original_type : Option PyType
deriving DecidableEq, Repr

/-- Qt `QSpinBox.setValue`: the value is clamped to the range. -/
def QPW_Index.setValue (w : QPW_Index) (n : Int) : QPW_Index :=
  { w with value := max w.lo (min w.hi n) }

/-- `QPW_Index.qpw_get`: `self.original_type(self.value())`. -/
def QPW_Index.qpw_get (w : QPW_Index) : Option PyVal :=
  w.original_type.map (fun t => convertInt t w.value)

/-- `QPW_Index.qpw_set`: remember `type(value)` on the first call, then
`self.setValue(value)`; PyQt raises TypeError when `value` is a string. -/
def QPW_Index.qpw_set (w : QPW_Index) (value : PyVal) : Option QPW_Index :=
  (pyAsIntArg value).map (fun n =>
    QPW_Index.setValue { w with original_type := some (w.original_type.getD value.type) } n)

/-- `QPW_Text(QtWidgets.QLineEdit)`: the text and the `original_type`
attribute. -/
structure QPW_Text where
  text : String
  original_type : Option PyType
deriving DecidableEq, Repr

/-- `QPW_Text.qpw_get`: `self.original_type(self.text())`. -/
def QPW_Text.qpw_get (w : QPW_Text) : Option PyVal :=
  w.original_type.bind (fun t => convertStr t w.text)

/-- `QPW_Text.qpw_set`: remember `type(value)` on the first call, then
`self.setText(str(value))`. -/
def QPW_Text.qpw_set (w : QPW_Text) (value : PyVal) : QPW_Text :=
  { text := value.pyStr, original_type := some (w.original_type.getD value.type) }

/-- The values a widget type accepts, per the marshaling convention: a
checkbox holds a bool, a combo box an int or string whose string form is
among its items, a spin box an int within its range, a line edit an int
or a string. -/
def QPW_Choice.accepts (w : QPW_Choice) (v : PyVal) : Prop :=
  (v.type = .int ∨ v.type = .str) ∧ v.pyStr ∈ w.items

def QPW_Index.accepts (w : QPW_Index) (v : PyVal) : Prop :=
  match v with
  | .int n => w.lo ≤ n ∧ n ≤ w.hi
  | _ => False

instance QPW_Index.accepts.dec (w : QPW_Index) (v : PyVal) :
    Decidable (w.accepts v) := by
  unfold QPW_Index.accepts
  cases v <;> infer_instance

def QPW_Text.accepts (v : PyVal) : Prop := v.type = .int ∨ v.type = .str

/-- A widget whose `original_type` is still `None` or already the type of
`v` marshals `v` without changing its type. -/
def typeCompat (ot : Option PyType) (v : PyVal) : Prop :=
  ot = none ∨ ot = some v.type

theorem convertStr_pyStr_of_intStr {v : PyVal} (hk : v.type = .int ∨ v.type = .str) :
    convertStr v.type v.pyStr = some v := by
  cases v with
  | int n => simp [convertStr, PyVal.pyStr, PyVal.type, pyParseInt_pyStrOfInt n]
  | str s => simp [convertStr, PyVal.pyStr, PyVal.type]
  | bool b => simp [PyVal.type] at hk

theorem roundtrip_checkbox (w : QPW_CheckBox) (b : Bool) :
    (w.qpw_set (.bool b)).qpw_get = some (.bool b) := by
  cases b <;> rfl

theorem roundtrip_choice (w : QPW_Choice) (v : PyVal)
    (hacc : w.accepts v) (hty : typeCompat w.original_type v) :
    (w.qpw_set v).qpw_get = some v := by
  obtain ⟨hk, hmem⟩ := hacc
  have hot : w.original_type.getD v.type = v.type := by
    cases hty with
    | inl h => rw [h]; rfl
    | inr h => rw [h]; rfl
  rw [QPW_Choice.qpw_set, QPW_Choice.setCurrentText]
  simp only [if_pos hmem]
  rw [QPW_Choice.qpw_get]
  simp only [hot, Option.bind_some]
  exact convertStr_pyStr_of_intStr hk

theorem roundtrip_index (w : QPW_Index) (v : PyVal)
    (hacc : w.accepts v) (hty : typeCompat w.original_type v) :
    ∃ w2 : QPW_Index, w.qpw_set v = some w2 ∧ w2.qpw_get = some v := by
  rcases v with n | s | b
  case str => exact absurd hacc (by simp [QPW_Index.accepts])
  case bool => exact absurd hacc (by simp [QPW_Index.accepts])
  obtain ⟨hlo, hhi⟩ := hacc
  have hot : w.original_type.getD (PyVal.int n).type = .int := by
    cases hty with
    | inl h => rw [h]; rfl
    | inr h => rw [h]; rfl
  refine ⟨_, rfl, ?_⟩
  rw [QPW_Index.qpw_get]
  simp only [QPW_Index.setValue, hot, Option.map_some']
  have hclamp : max w.lo (min w.hi n) = n := by omega
  simp [hclamp, convertInt]

theorem roundtrip_text (w : QPW_Text) (v : PyVal)
    (hacc : QPW_Text.accepts v) (hty : typeCompat w.original_type v) :
    (w.qpw_set v).qpw_get = some v := by
  have hot : w.original_type.getD v.type = v.type := by
    cases hty with
    | inl h => rw [h]; rfl
    | inr h => rw [h]; rfl
  rw [QPW_Text.qpw_set, QPW_Text.qpw_get]
  simp only [hot, Option.bind_some]
  exact convertStr_pyStr_of_intStr hacc

/-! ### Widget type keys (src/pyqparamwidget/qpw_widgets.py and the copy in
src/pyqparamwidget/param_editor.py) -/

def PARM_TYPE_CHECKBOX : String := "QPW_checkbox"

def PARM_TYPE_CHOICE : String := "QPW_choice"

def PARM_TYPE_INDEX : String := "QPW_index"

def PARM_TYPE_DEFAULT : String := "QPW_default"

/-- `_PARM_WIDGET_KEYS` of qpw_widgets.py (dict order: checkbox, choice,
default, index). -/
def PARM_WIDGET_KEYS : List String :=
  [PARM_TYPE_CHECKBOX, PARM_TYPE_CHOICE, PARM_TYPE_DEFAULT, PARM_TYPE_INDEX]

/-- `_PARM_WIDGET_KEYS` of param_editor.py (dict order: checkbox, choice,
index, default). -/
def PARM_WIDGET_KEYS_PE : List String :=
  [PARM_TYPE_CHECKBOX, PARM_TYPE_CHOICE, PARM_TYPE_INDEX, PARM_TYPE_DEFAULT]

/-- A raised Python exception, by class and message. -/
inductive PyErr where
  | valueError (msg : String) : PyErr
  | notImplementedError (msg : String) : PyErr
deriving DecidableEq, Repr

/-- Python `repr` of a string without quotes inside (the widget keys). -/
def pyReprStr (s : String) : String := "'" ++ s ++ "'"

/-- Python `str` of a list of strings, as an f-string formats it. -/
def pyListRepr (l : List String) : String :=
  "[" ++ String.intercalate ", " (l.map pyReprStr) ++ "]"

/-! ### src/pyqparamwidget/param_item.py -/

/-- The dynamic class of a parameter item: `ParameterItemBase` or one of
its four subclasses.  `validate` dispatches on it. -/
inductive PIKind where
  | base : PIKind
  | checkbox : PIKind
  | choice : PIKind
  | index : PIKind
  | text : PIKind
deriving DecidableEq, Repr

/-- The `ParameterItemBase` dataclass: label, value, and the keyword-only
fields.  `UNDEFINED_VALUE` defaults are `none`. -/
structure ParameterItemBase where
  kind : PIKind
  label : String
  value : PyVal
  widget : String
  tooltip : String
  choices : Option (List String)
  hi : Option Int
  lo : Option Int
deriving DecidableEq, Repr

/-- `validate` of the item's class: the base raises NotImplementedError,
checkbox and text pass, choice requires `choices`, index requires
`lo <= int(value) <= hi` with both bounds given. -/
def ParameterItemBase.validate (p : ParameterItemBase) : Except PyErr Unit :=
  match p.kind with
  | .base => .error (.notImplementedError "Implement in the subclass.")
  | .checkbox => .ok ()
  | .text => .ok ()
  | .choice =>
      if p.choices = none then
        .error (.valueError "Must be list of choices: 'choices=[\"one\", \"two\", ...]'")
      else .ok ()
  | .index =>
      match p.hi with
      | none => .error (.valueError "Must provide hi (maximum value), example: 'hi=9'")
      | some h =>
          match p.lo with
          | none =>
              .error (.valueError "Must provide lo (minimum value), example: 'lo=0'")
          | some l =>
              if l > h then
                .error (.valueError ("Received 'lo=" ++ pyStrOfInt l ++
                  "' which is greater than 'hi=" ++ pyStrOfInt h ++ "'."))
              else
                match pyInt p.value with
                | none =>
                    .error (.valueError ("invalid literal for int() with base 10: " ++
                      pyReprStr p.value.pyStr))
                | some n =>
                    if n > h then
                      .error (.valueError ("Received 'value=" ++ p.value.pyStr ++
                        ".  Cannot be greater than: hi=" ++ pyStrOfInt h ++ "'."))
                    else if n < l then
                      .error (.valueError ("Received 'value=" ++ p.value.pyStr ++
                        ".  Cannot be less than: lo=" ++ pyStrOfInt l ++ "'."))
                    else .ok ()

/-- `ParameterItemBase.__post_init__`: a recognized widget key dispatches
to `validate`, any other key raises ValueError naming the allowed keys. -/
def ParameterItemBase.postInit (p : ParameterItemBase) : Except PyErr Unit :=
  if p.widget ∈ PARM_WIDGET_KEYS then p.validate
  else
    .error (.valueError ("Received 'widget=" ++ pyReprStr p.widget ++
      ".  Must be one of " ++ pyListRepr PARM_WIDGET_KEYS ++ "."))

/-- Construction of a dataclass instance: build the record, then run
`__post_init__`; an error there aborts the construction. -/
def ParameterItemBase.construct (p : ParameterItemBase) : Except PyErr ParameterItemBase :=
  p.postInit.map (fun _ => p)

/-- `ParameterItemChoice(label, value, choices, tooltip)`: `none` for
`choices` stands for passing the `UNDEFINED_VALUE` sentinel (the Python
default is the empty list). -/
def ParameterItemChoice.make (label : String) (value : PyVal)
    (choices : Option (List String)) (tooltip : String) : Except PyErr ParameterItemBase :=
  ParameterItemBase.construct
    { kind := .choice, label := label, value := value, widget := PARM_TYPE_CHOICE,
      tooltip := tooltip, choices := choices, hi := none, lo := none }

/-- `ParameterItemIndex(label, value, hi, lo, tooltip)`: `none` stands for
the `UNDEFINED_VALUE` default. -/
def ParameterItemIndex.make (label : String) (value : PyVal)
    (hi : Option Int) (lo : Option Int) (tooltip : String) : Except PyErr ParameterItemBase :=
  ParameterItemBase.construct
    { kind := .index, label := label, value := value, widget := PARM_TYPE_INDEX,
      tooltip := tooltip, choices := none, hi := hi, lo := lo }

/-- `ParameterItemText(label, value, tooltip)`. -/
def ParameterItemText.make (label : String) (value : PyVal)
    (tooltip : String) : Except PyErr ParameterItemBase :=
  ParameterItemBase.construct
    { kind := .text, label := label, value := value, widget := PARM_TYPE_DEFAULT,
      tooltip := tooltip, choices := none, hi := none, lo := none }

/-- `ParameterItemCheckbox(label, value, tooltip)`. -/
def ParameterItemCheckbox.make (label : String) (value : PyVal)
    (tooltip : String) : Except PyErr ParameterItemBase :=
  ParameterItemBase.construct
    { kind := .checkbox, label := label, value := value, widget := PARM_TYPE_CHECKBOX,
      tooltip := tooltip, choices := none, hi := none, lo := none }

/-! ### The frozen `ParameterItem` dataclass of
src/pyqparamwidget/param_editor.py -/

/-- `@dataclass(frozen=True) class ParameterItem`: the dataclass is frozen,
so the embedding has no operation that modifies an instance; every
editor operation below returns the `parameters` component unchanged. -/
structure ParameterItem where
  label : String
  original_value : PyVal
  default_value : Option PyVal
  widget : String
  tooltip : String
  choices : Option (List String)
  hi : Option Int
  lo : Option Int
deriving DecidableEq, Repr

/-- The choice branch of `ParameterItem.__post_init__`. -/
def ParameterItem.choiceCheck (p : ParameterItem) : Except PyErr Unit :=
  if p.choices = none then
    .error (.valueError "Must list of choices: 'choices=[\"one\", \"two\", ...]'")
  else .ok ()

/-- The index branch of `ParameterItem.__post_init__`. -/
def ParameterItem.indexCheck (p : ParameterItem) : Except PyErr Unit :=
  match p.hi with
  | none => .error (.valueError "Must provide hi (maximum value), example: 'hi=9'")
  | some h =>
      match p.lo with
      | none => .error (.valueError "Must provide lo (minimum value), example: 'lo=0'")
      | some l =>
          if l > h then
            .error (.valueError ("Received 'lo=" ++ pyStrOfInt l ++
              "' which is greater than 'hi=" ++ pyStrOfInt h ++ "'."))
          else
            match pyInt p.original_value with
            | none =>
                .error (.valueError ("invalid literal for int() with base 10: " ++
                  pyReprStr p.original_value.pyStr))
            | some n =>
                if n > h then
                  .error (.valueError ("Received 'original_value=" ++
                    p.original_value.pyStr ++ ".  Which is greater than: hi=" ++
                    pyStrOfInt h ++ "'."))
                else if n < l then
                  .error (.valueError ("Received 'original_value=" ++
                    p.original_value.pyStr ++ ".  Which is less than: lo=" ++
                    pyStrOfInt l ++ "'."))
                else .ok ()

/-- The message of the unknown-widget-key branch of
`ParameterItem.__post_init__`. -/
def ParameterItem.badWidgetMsg (w : String) : String :=
  "Received 'widget=" ++ pyReprStr w ++ ".  Must be one of " ++
    pyListRepr PARM_WIDGET_KEYS_PE ++ "."

/-- `ParameterItem.__post_init__`: choice and index widgets validate their
keyword fields; a key that is none of the four recognized ones raises
ValueError naming the allowed keys. -/
def ParameterItem.postInit (p : ParameterItem) : Except PyErr Unit :=
  if p.widget = PARM_TYPE_CHOICE then p.choiceCheck
  else if p.widget = PARM_TYPE_INDEX then p.indexCheck
  else if p.widget ∉ PARM_WIDGET_KEYS_PE then
    .error (.valueError (ParameterItem.badWidgetMsg p.widget))
  else .ok ()

/-- Construction of the frozen dataclass: run `__post_init__`. -/
def ParameterItem.construct (p : ParameterItem) : Except PyErr ParameterItem :=
  p.postInit.map (fun _ => p)

/-! ### The `ParameterEditor` widget of src/pyQParamWidget/param_editor.py

Its editor widgets are the `QPW_` classes above, dispatched through
`pitem.widget_class` (defined on the choice, index and text subclasses of
param_item.py; the base and checkbox classes have no `widget_class`
attribute, so building an editor for them raises AttributeError). -/

/-- One editor widget of the form: a `QPW_` instance. -/
inductive QPWWidget where
  | checkbox (w : QPW_CheckBox) : QPWWidget
  | choice (w : QPW_Choice) : QPWWidget
  | index (w : QPW_Index) : QPWWidget
  | text (w : QPW_Text) : QPWWidget
deriving DecidableEq, Repr

/-- `editor.qpw_get()`. -/
def QPWWidget.qpw_get : QPWWidget → Option PyVal
  | .checkbox w => w.qpw_get
  | .choice w => w.qpw_get
  | .index w => w.qpw_get
  | .text w => w.qpw_get

/-- `editor.qpw_set(value)`; `none` is the TypeError a spin box raises on
a string argument. -/
def QPWWidget.qpw_set : QPWWidget → PyVal → Option QPWWidget
  | .checkbox w, v => some (.checkbox (w.qpw_set v))
  | .choice w, v => some (.choice (w.qpw_set v))
  | .index w, v => (w.qpw_set v).map .index
  | .text w, v => some (.text (w.qpw_set v))

/-- Modelled from the spec: `editor.qpw_isChanged()` is called by
`ParameterEditor.changedValues` but its definition is not under src/.
Per the spec's dirty-tracking description ("If dirty, then widget
value(s) are not as provided"), a widget counts as changed exactly when
its marshaled current value differs from its parameter's supplied
value. -/
def QPWWidget.qpw_isChanged (w : QPWWidget) (supplied : PyVal) : Bool :=
  w.qpw_get != some supplied

/-- Modelled from the spec: `pitem.widget_class(...)` plus
`editor.qpw_setup(pitem, checkIfDirty)`; `qpw_setup` is not under src/.
Modelled after the in-repo `ParameterEditorWidget.setup`: a combo box is
filled with the item's choices (Qt then shows the first item), a spin box
gets the item's range (its default value 0 clamped into it), a line edit
starts empty.  `none` for the base and checkbox classes, which have no
`widget_class` attribute. -/
def initWidget (p : ParameterItemBase) : Option QPWWidget :=
  match p.kind with
  | .choice =>
      some (.choice ⟨p.choices.getD [], (p.choices.getD []).headD "", none⟩)
  | .index =>
      let lo := p.lo.getD 0
      let hi := p.hi.getD 99
      some (.index ⟨lo, hi, max lo (min hi 0), none⟩)
  | .text => some (.text ⟨"", none⟩)
  | .checkbox => none
  | .base => none

/-- A user interaction with one editor widget: toggling the check state,
picking an item from the combo list, spinning to a value, or typing
text. -/
inductive EditAction where
  | setState (n : Int) : EditAction
  | pick (s : String) : EditAction
  | spin (n : Int) : EditAction
  | typeText (s : String) : EditAction
deriving DecidableEq, Repr

/-- The widget after a user interaction; an action of the wrong shape for
the widget leaves it unchanged (no such signal exists). -/
def QPWWidget.applyEdit : QPWWidget → EditAction → QPWWidget
  | .checkbox _, .setState n => .checkbox ⟨n⟩
  | .choice w, .pick s => .choice (w.setCurrentText s)
  | .index w, .spin n => .index (w.setValue n)
  | .text w, .typeText s => .text { w with text := s }
  | w, _ => w

/-- `ParameterEditor`: the parameters dict and the editors dict share
their keys and their order, so both are one association list; `_dirty`
is the unsaved-changes flag. -/
structure ParameterEditor where
  entries : List (String × ParameterItemBase × QPWWidget)
  _dirty : Bool
deriving DecidableEq, Repr

namespace ParameterEditor

/-- `self.parameters` (the dict's values, keyed). -/
def parameters (e : ParameterEditor) : List (String × ParameterItemBase) :=
  e.entries.map (fun x => (x.1, x.2.1))

/-- The body of the `changedValues` dict comprehension: an entry for a
changed widget, nothing for an unchanged one. -/
def cvF (y : String × ParameterItemBase × QPWWidget) : Option (String × Option PyVal) :=
  if y.2.2.qpw_isChanged y.2.1.value then some (y.1, y.2.2.qpw_get) else none

/-- `ParameterEditor.changedValues`: only the changed widgets' marshaled
values.  (In Python a marshaling failure would raise inside the dict
comprehension; the entry keeps `none` here and the theorems assume
success where the claim needs the value.) -/
def changedValues (e : ParameterEditor) : List (String × Option PyVal) :=
  e.entries.filterMap cvF

/-- `ParameterEditor.dirty`. -/
def dirty (e : ParameterEditor) : Bool := e._dirty

/-- `ParameterEditor.setDirty` (the accept/reset buttons' enabled state is
presentation only and is not part of the state here). -/
def setDirty (e : ParameterEditor) (d : Bool) : ParameterEditor :=
  { e with _dirty := d }

/-- The `checkIfDirty` slot of `ParameterEditor.setup`:
`dirty = len(self.changedValues()) > 0; self.setDirty(dirty)`. -/
def checkIfDirty (e : ParameterEditor) : ParameterEditor :=
  e.setDirty (decide (0 < e.changedValues.length))

/-- A user interaction with the editor widget at key `k`: the widget
changes and its change signal runs `checkIfDirty` (the connection is made
in `qpw_setup`). -/
def userEdit (e : ParameterEditor) (k : String) (a : EditAction) : ParameterEditor :=
  checkIfDirty
    { e with
      entries := e.entries.map (fun x =>
        if x.1 = k then (x.1, x.2.1, x.2.2.applyEdit a) else x) }

/-- `ParameterEditor.do_accept`: write each changed value into its
parameter's `value`, then clear the dirty flag.  (An entry of
`changedValues` whose marshaling failed would have raised in Python
before this point; it updates nothing here.) -/
def do_accept (e : ParameterEditor) : ParameterEditor :=
  let cv := e.changedValues
  { entries := e.entries.map (fun x =>
      match List.lookup x.1 cv with
      | some (some v) => (x.1, { x.2.1 with value := v }, x.2.2)
      | _ => x),
    _dirty := false }

/-- `ParameterEditor.do_reset`: `editor.qpw_set(self.parameters[k].value)`
for every editor, then clear the dirty flag. -/
def do_reset (e : ParameterEditor) : Option ParameterEditor := do
  let entries ← e.entries.mapM (fun x =>
    (x.2.2.qpw_set x.2.1.value).map (fun w => (x.1, x.2.1, w)))
  pure { entries := entries, _dirty := false }

/-- `ParameterEditor.values`: every editor's marshaled current value. -/
def values (e : ParameterEditor) : List (String × Option PyVal) :=
  e.entries.map (fun x => (x.1, x.2.2.qpw_get))

/-- `ParameterEditor.setup` on a parameters dict: build an editor widget
per parameter (`none` when one of them has no `widget_class` or a spin
box rejects its value), then `do_reset`. -/
def setup (parameters : List (String × ParameterItemBase)) : Option ParameterEditor := do
  let entries ← parameters.mapM (fun x =>
    (initWidget x.2).map (fun w => (x.1, x.2, w)))
  do_reset { entries := entries, _dirty := false }

end ParameterEditor

/-! ### The `ParameterEditorWidget` of src/pyqparamwidget/param_editor.py

This editor builds plain Qt widgets (`_PARM_WIDGETS[pitem.widget](self)`)
and reads/writes them through per-kind branches keyed on the item's
`widget` string. -/

/-- A plain Qt form widget as this editor uses it. -/
inductive QtW where
  | qcheckbox (checkState : Int) : QtW
  | qcombobox (items : List String) (currentText : String) : QtW
  | qspinbox (lo : Int) (hi : Int) (val : Int) : QtW
  | qlineedit (text : String) : QtW
deriving DecidableEq, Repr

/-- `editor.checkState()`; AttributeError (`none`) on another class. -/
def QtW.checkStateN : QtW → Option Int
  | .qcheckbox n => some n
  | _ => none

/-- `editor.currentText()`. -/
def QtW.currentTextN : QtW → Option String
  | .qcombobox _ t => some t
  | _ => none

/-- `editor.value()`. -/
def QtW.valueN : QtW → Option Int
  | .qspinbox _ _ v => some v
  | _ => none

/-- `editor.text()`. -/
def QtW.textN : QtW → Option String
  | .qlineedit t => some t
  | _ => none

/-- `editor.setCheckState(n)`. -/
def QtW.trySetCheckState : QtW → Int → Option QtW
  | .qcheckbox _, n => some (.qcheckbox n)
  | _, _ => none

/-- `editor.setCurrentText(s)` on a non-editable combo box: only a text
among the items changes the selection. -/
def QtW.trySetCurrentText : QtW → String → Option QtW
  | .qcombobox items t, s => some (.qcombobox items (if s ∈ items then s else t))
  | _, _ => none

/-- `editor.setValue(n)`: clamped into the spin box's range. -/
def QtW.trySetValue : QtW → Int → Option QtW
  | .qspinbox lo hi _, n => some (.qspinbox lo hi (max lo (min hi n)))
  | _, _ => none

/-- `editor.setText(s)`. -/
def QtW.trySetText : QtW → String → Option QtW
  | .qlineedit _, s => some (.qlineedit s)
  | _, _ => none

/-- `ParameterEditorWidget`: the parameters dict and the editors dict
share keys and order; `dirty` is the unsaved-changes flag. -/
structure ParameterEditorWidget where
  entries : List (String × ParameterItem × QtW)
  dirty : Bool
deriving DecidableEq, Repr

namespace ParameterEditorWidget

/-- `self.parameters`. -/
def parameters (e : ParameterEditorWidget) : List (String × ParameterItem) :=
  e.entries.map (fun x => (x.1, x.2.1))

/-- The editor widgets, keyed. -/
def editors (e : ParameterEditorWidget) : List (String × QtW) :=
  e.entries.map (fun x => (x.1, x.2.2))

/-- `ParameterEditorWidget.currentValues`: each widget's native value,
reported using the original data type
(`orig_type = type(self.parameters[k].original_value)`). -/
def currentValues (e : ParameterEditorWidget) : List (String × Option PyVal) :=
  e.entries.map (fun x =>
    let p := x.2.1
    let t := p.original_value.type
    (x.1,
      if p.widget = PARM_TYPE_CHECKBOX then (x.2.2.checkStateN).map (convertInt t)
      else if p.widget = PARM_TYPE_CHOICE then (x.2.2.currentTextN).bind (convertStr t)
      else if p.widget = PARM_TYPE_INDEX then (x.2.2.valueN).map (convertInt t)
      else (x.2.2.textN).bind (convertStr t)))

/-- `ParameterEditorWidget.do_cancel`: clear the dirty flag and return the
empty dict; nothing else is touched. -/
def do_cancel (e : ParameterEditorWidget) :
    ParameterEditorWidget × List (String × PyVal) :=
  ({ e with dirty := false }, [])

/-- `ParameterEditorWidget.do_ok`: clear the dirty flag and return the
current values of all widgets (the parameters are not redefined; see the
TODO in the source). -/
def do_ok (e : ParameterEditorWidget) :
    ParameterEditorWidget × List (String × Option PyVal) :=
  ({ e with dirty := false }, e.currentValues)

/-- The widget after `do_revert` sets it from `original_value` through
the per-kind branch. -/
def revertWidget (p : ParameterItem) (w : QtW) : Option QtW :=
  if p.widget = PARM_TYPE_CHECKBOX then
    (pyAsIntArg p.original_value).bind w.trySetCheckState
  else if p.widget = PARM_TYPE_CHOICE then
    w.trySetCurrentText p.original_value.pyStr
  else if p.widget = PARM_TYPE_INDEX then
    (pyAsIntArg p.original_value).bind w.trySetValue
  else w.trySetText p.original_value.pyStr

/-- One entry's step of `do_revert`. -/
def revertEntry (x : String × ParameterItem × QtW) :
    Option (String × ParameterItem × QtW) :=
  (revertWidget x.2.1 x.2.2).map (fun w => (x.1, x.2.1, w))

/-- `ParameterEditorWidget.do_revert`: set every widget from its
parameter's `original_value` through the per-kind branch, then clear the
dirty flag. -/
def do_revert (e : ParameterEditorWidget) : Option ParameterEditorWidget := do
  let entries ← e.entries.mapM revertEntry
  pure { entries := entries, dirty := false }

end ParameterEditorWidget

/-! ### Claims C2 and C9: the marshaling convention -/

theorem choice_type_fix (w : QPW_Choice) (v : PyVal) (h : w.original_type = none) :
    (w.qpw_set v).original_type = some v.type := by
  rw [QPW_Choice.qpw_set, QPW_Choice.setCurrentText]
  split <;> simp [h]

theorem choice_type_keep (w : QPW_Choice) (t : PyType) (v : PyVal)
    (h : w.original_type = some t) : (w.qpw_set v).original_type = some t := by
  rw [QPW_Choice.qpw_set, QPW_Choice.setCurrentText]
  split <;> simp [h]

theorem choice_get_uses_type (w : QPW_Choice) (t : PyType)
    (h : w.original_type = some t) : w.qpw_get = convertStr t w.currentText := by
  rw [QPW_Choice.qpw_get, h]; rfl

theorem index_type_fix (w : QPW_Index) (v : PyVal) (w2 : QPW_Index)
    (h : w.original_type = none) (h2 : w.qpw_set v = some w2) :
    w2.original_type = some v.type := by
  rw [QPW_Index.qpw_set] at h2
  cases harg : pyAsIntArg v with
  | none => rw [harg] at h2; exact absurd h2 (by simp)
  | some n =>
      rw [harg, Option.map_some'] at h2
      cases h2
      simp [QPW_Index.setValue, h]

theorem index_type_keep (w : QPW_Index) (t : PyType) (v : PyVal) (w2 : QPW_Index)
    (h : w.original_type = some t) (h2 : w.qpw_set v = some w2) :
    w2.original_type = some t := by
  rw [QPW_Index.qpw_set] at h2
  cases harg : pyAsIntArg v with
  | none => rw [harg] at h2; exact absurd h2 (by simp)
  | some n =>
      rw [harg, Option.map_some'] at h2
      cases h2
      simp [QPW_Index.setValue, h]

theorem index_get_uses_type (w : QPW_Index) (t : PyType)
    (h : w.original_type = some t) : w.qpw_get = some (convertInt t w.value) := by
  rw [QPW_Index.qpw_get, h]; rfl

theorem text_type_fix (w : QPW_Text) (v : PyVal) (h : w.original_type = none) :
    (w.qpw_set v).original_type = some v.type := by
  simp [QPW_Text.qpw_set, h]

theorem text_type_keep (w : QPW_Text) (t : PyType) (v : PyVal)
    (h : w.original_type = some t) : (w.qpw_set v).original_type = some t := by
  simp [QPW_Text.qpw_set, h]

theorem text_get_uses_type (w : QPW_Text) (t : PyType)
    (h : w.original_type = some t) : w.qpw_get = convertStr t w.text := by
  rw [QPW_Text.qpw_get, h]; rfl

/-- C2: For every widget class `QPW_CheckBox`, `QPW_Choice`, `QPW_Index`,
`QPW_Text` and every value `v` accepted by that widget type (a bool for
the checkbox; an int or string whose string form is among the items for
the combo box; an int within the range for the spin box; an int or string
for the line edit — with `original_type` unset or matching), `qpw_set v`
followed by `qpw_get` returns a value equal to `v` and of the same type:
the original typed value is recovered from the widget's native
bool/string/int representation. -/
theorem claim_C2 :
    (∀ (w : QPW_CheckBox) (b : Bool),
      (w.qpw_set (.bool b)).qpw_get = some (.bool b)) ∧
    (∀ (w : QPW_Choice) (v : PyVal), w.accepts v → typeCompat w.original_type v →
      (w.qpw_set v).qpw_get = some v) ∧
    (∀ (w : QPW_Index) (v : PyVal), w.accepts v → typeCompat w.original_type v →
      ∃ w2 : QPW_Index, w.qpw_set v = some w2 ∧ w2.qpw_get = some v) ∧
    (∀ (w : QPW_Text) (v : PyVal), QPW_Text.accepts v → typeCompat w.original_type v →
      (w.qpw_set v).qpw_get = some v) :=
  ⟨roundtrip_checkbox, roundtrip_choice, roundtrip_index, roundtrip_text⟩

/-- Witness for C2 at concrete inputs: each widget type recovers a
concrete accepted value. -/
theorem claim_C2_witness :
    ((QPW_CheckBox.qpw_set ⟨0⟩ (.bool true)).qpw_get = some (.bool true)) ∧
    ((QPW_Choice.qpw_set ⟨["a", "7"], "a", none⟩ (.int 7)).qpw_get = some (.int 7)) ∧
    (∃ w2 : QPW_Index, QPW_Index.qpw_set ⟨0, 9, 0, none⟩ (.int 5) = some w2 ∧
      w2.qpw_get = some (.int 5)) ∧
    ((QPW_Text.qpw_set ⟨"", none⟩ (.str "hello")).qpw_get = some (.str "hello")) :=
  ⟨claim_C2.1 ⟨0⟩ true,
   claim_C2.2.1 ⟨["a", "7"], "a", none⟩ (.int 7) ⟨Or.inl rfl, by decide⟩ (Or.inl rfl),
   claim_C2.2.2.1 ⟨0, 9, 0, none⟩ (.int 5) (by decide) (Or.inl rfl),
   claim_C2.2.2.2 ⟨"", none⟩ (.str "hello") (Or.inr rfl) (Or.inl rfl)⟩

/-- C9: For `QPW_Choice`, `QPW_Index` and `QPW_Text`, the first
`qpw_set` fixes `original_type` to the type of its value (it was `None`
before), every later `qpw_set` leaves it unchanged whatever the new
value's type, and `qpw_get` always converts the native value with the
stored type. -/
theorem claim_C9 :
    (∀ (w : QPW_Choice) (v : PyVal), w.original_type = none →
      (w.qpw_set v).original_type = some v.type) ∧
    (∀ (w : QPW_Choice) (t : PyType) (v : PyVal), w.original_type = some t →
      (w.qpw_set v).original_type = some t) ∧
    (∀ (w : QPW_Choice) (t : PyType), w.original_type = some t →
      w.qpw_get = convertStr t w.currentText) ∧
    (∀ (w : QPW_Index) (v : PyVal) (w2 : QPW_Index), w.original_type = none →
      w.qpw_set v = some w2 → w2.original_type = some v.type) ∧
    (∀ (w : QPW_Index) (t : PyType) (v : PyVal) (w2 : QPW_Index), w.original_type = some t →
      w.qpw_set v = some w2 → w2.original_type = some t) ∧
    (∀ (w : QPW_Index) (t : PyType), w.original_type = some t →
      w.qpw_get = some (convertInt t w.value)) ∧
    (∀ (w : QPW_Text) (v : PyVal), w.original_type = none →
      (w.qpw_set v).original_type = some v.type) ∧
    (∀ (w : QPW_Text) (t : PyType) (v : PyVal), w.original_type = some t →
      (w.qpw_set v).original_type = some t) ∧
    (∀ (w : QPW_Text) (t : PyType), w.original_type = some t →
      w.qpw_get = convertStr t w.text) :=
  ⟨choice_type_fix, choice_type_keep, choice_get_uses_type,
   index_type_fix, index_type_keep, index_get_uses_type,
   text_type_fix, text_type_keep, text_get_uses_type⟩

/-- Witness for C9: on a fresh line edit, setting the int `1` and then
the string `"x"` leaves `original_type` at int, and `qpw_get` converts
the shown text `"x"` with int — which fails (`none`), exactly Python's
ValueError from `int("x")`. -/
theorem claim_C9_witness :
    ((QPW_Text.qpw_set ⟨"", none⟩ (.int 1)).original_type = some PyType.int) ∧
    ((QPW_Text.qpw_set (QPW_Text.qpw_set ⟨"", none⟩ (.int 1)) (.str "x")).original_type
      = some PyType.int) ∧
    ((QPW_Text.qpw_set (QPW_Text.qpw_set ⟨"", none⟩ (.int 1)) (.str "x")).qpw_get
      = convertStr PyType.int "x") :=
  ⟨claim_C9.2.2.2.2.2.2.1 ⟨"", none⟩ (.int 1) rfl,
   claim_C9.2.2.2.2.2.2.2.1 (QPW_Text.qpw_set ⟨"", none⟩ (.int 1)) PyType.int (.str "x")
     (by decide),
   claim_C9.2.2.2.2.2.2.2.2 (QPW_Text.qpw_set (QPW_Text.qpw_set ⟨"", none⟩ (.int 1))
     (.str "x")) PyType.int (by decide)⟩

/-! ### Claims C5, C6, C8: construction-time validation -/

/-- C5: Constructing an index (bounded integer) parameter item raises
ValueError when `hi` is missing, when `lo` is missing, when `lo > hi`, or
when the supplied value lies outside `lo..hi`; with both bounds given and
`lo ≤ value ≤ hi` construction succeeds.  Stated for
`ParameterItemIndex` of param_item.py and for the index branch of
`ParameterItem.__post_init__` of param_editor.py. -/
theorem claim_C5 :
    (∀ (label : String) (v : PyVal) (lo : Option Int) (tooltip : String),
      ParameterItemIndex.make label v none lo tooltip =
        .error (.valueError "Must provide hi (maximum value), example: 'hi=9'")) ∧
    (∀ (label : String) (v : PyVal) (h : Int) (tooltip : String),
      ParameterItemIndex.make label v (some h) none tooltip =
        .error (.valueError "Must provide lo (minimum value), example: 'lo=0'")) ∧
    (∀ (label : String) (v : PyVal) (h l : Int) (tooltip : String), l > h →
      ParameterItemIndex.make label v (some h) (some l) tooltip =
        .error (.valueError ("Received 'lo=" ++ pyStrOfInt l ++
          "' which is greater than 'hi=" ++ pyStrOfInt h ++ "'."))) ∧
    (∀ (label : String) (n h l : Int) (tooltip : String), ¬l > h → (n > h ∨ n < l) →
      ∃ m, ParameterItemIndex.make label (.int n) (some h) (some l) tooltip =
        .error (.valueError m)) ∧
    (∀ (label : String) (n h l : Int) (tooltip : String), l ≤ n → n ≤ h →
      ParameterItemIndex.make label (.int n) (some h) (some l) tooltip =
        .ok ⟨.index, label, .int n, PARM_TYPE_INDEX, tooltip, none, some h, some l⟩) ∧
    (∀ p : ParameterItem, p.widget = PARM_TYPE_INDEX → p.hi = none →
      p.postInit =
        .error (.valueError "Must provide hi (maximum value), example: 'hi=9'")) ∧
    (∀ (p : ParameterItem) (h : Int), p.widget = PARM_TYPE_INDEX → p.hi = some h →
      p.lo = none →
      p.postInit =
        .error (.valueError "Must provide lo (minimum value), example: 'lo=0'")) ∧
    (∀ (p : ParameterItem) (h l : Int), p.widget = PARM_TYPE_INDEX → p.hi = some h →
      p.lo = some l → l > h →
      p.postInit = .error (.valueError ("Received 'lo=" ++ pyStrOfInt l ++
        "' which is greater than 'hi=" ++ pyStrOfInt h ++ "'."))) ∧
    (∀ (p : ParameterItem) (n h l : Int), p.widget = PARM_TYPE_INDEX → p.hi = some h →
      p.lo = some l → ¬l > h → p.original_value = .int n → (n > h ∨ n < l) →
      ∃ m, p.postInit = .error (.valueError m)) ∧
    (∀ (p : ParameterItem) (n h l : Int), p.widget = PARM_TYPE_INDEX → p.hi = some h →
      p.lo = some l → p.original_value = .int n → l ≤ n → n ≤ h →
      p.postInit = .ok ()) := by
  refine ⟨?_, ?_, ?_, ?_, ?_, ?_, ?_, ?_, ?_, ?_⟩
  · intro label v lo tooltip; rfl
  · intro label v h tooltip; rfl
  · intro label v h l tooltip hlh
    simp only [ParameterItemIndex.make, ParameterItemBase.construct,
      ParameterItemBase.postInit, ParameterItemBase.validate]
    rw [if_pos (by decide), if_pos hlh]
    rfl
  · intro label n h l tooltip hlh hout
    simp only [ParameterItemIndex.make, ParameterItemBase.construct,
      ParameterItemBase.postInit, ParameterItemBase.validate]
    rw [if_pos (by decide), if_neg hlh]
    simp only [pyInt]
    rcases hout with hgt | hlt
    · rw [if_pos hgt]; exact ⟨_, rfl⟩
    · rw [if_neg (by omega), if_pos hlt]; exact ⟨_, rfl⟩
  · intro label n h l tooltip hln hnh
    simp only [ParameterItemIndex.make, ParameterItemBase.construct,
      ParameterItemBase.postInit, ParameterItemBase.validate]
    rw [if_pos (by decide), if_neg (by omega)]
    simp only [pyInt]
    rw [if_neg (by omega), if_neg (by omega)]
    rfl
  · intro p hw hhi
    rw [ParameterItem.postInit, if_neg (by rw [hw]; decide), if_pos hw,
      ParameterItem.indexCheck, hhi]
  · intro p h hw hhi hlo
    rw [ParameterItem.postInit, if_neg (by rw [hw]; decide), if_pos hw,
      ParameterItem.indexCheck, hhi, hlo]
  · intro p h l hw hhi hlo hlh
    rw [ParameterItem.postInit, if_neg (by rw [hw]; decide), if_pos hw,
      ParameterItem.indexCheck, hhi, hlo]
    simp only [if_pos hlh]
  · intro p n h l hw hhi hlo hlh hval hout
    rw [ParameterItem.postInit, if_neg (by rw [hw]; decide), if_pos hw,
      ParameterItem.indexCheck, hhi, hlo]
    simp only [if_neg hlh, hval, pyInt]
    rcases hout with hgt | hlt
    · rw [if_pos hgt]; exact ⟨_, rfl⟩
    · rw [if_neg (by omega), if_pos hlt]; exact ⟨_, rfl⟩
  · intro p n h l hw hhi hlo hval hln hnh
    rw [ParameterItem.postInit, if_neg (by rw [hw]; decide), if_pos hw,
      ParameterItem.indexCheck, hhi, hlo]
    simp only [if_neg (show ¬l > h by omega), hval, pyInt]
    rw [if_neg (by omega), if_neg (by omega)]

/-- Witness for C5: a missing bound errors, a value inside concrete
bounds constructs. -/
theorem claim_C5_witness :
    (ParameterItemIndex.make "i" (.int 5) none none "" =
      .error (.valueError "Must provide hi (maximum value), example: 'hi=9'")) ∧
    (∃ m, ParameterItemIndex.make "i" (.int 12) (some 9) (some 0) "" =
      .error (.valueError m)) ∧
    (ParameterItemIndex.make "i" (.int 5) (some 9) (some 0) "" =
      .ok ⟨.index, "i", .int 5, PARM_TYPE_INDEX, "", none, some 9, some 0⟩) :=
  ⟨claim_C5.1 "i" (.int 5) none "",
   claim_C5.2.2.2.1 "i" 12 9 0 "" (by decide) (Or.inl (by decide)),
   claim_C5.2.2.2.2.1 "i" 5 9 0 "" (by decide) (by decide)⟩

/-- C6: Constructing a choice parameter item with the choices field left
undefined raises ValueError whose message starts "Must be list of
choices"; with a list of choices supplied, construction succeeds.
Stated for `ParameterItemChoice` of param_item.py and for the choice
branch of `ParameterItem.__post_init__` of param_editor.py (whose copy
of the message drops the word "be"). -/
theorem claim_C6 :
    (∀ (label : String) (v : PyVal) (tooltip : String),
      ParameterItemChoice.make label v none tooltip =
        .error (.valueError
          "Must be list of choices: 'choices=[\"one\", \"two\", ...]'")) ∧
    (∀ (label : String) (v : PyVal) (cs : List String) (tooltip : String),
      ParameterItemChoice.make label v (some cs) tooltip =
        .ok ⟨.choice, label, v, PARM_TYPE_CHOICE, tooltip, some cs, none, none⟩) ∧
    (∀ p : ParameterItem, p.widget = PARM_TYPE_CHOICE → p.choices = none →
      p.postInit = .error (.valueError
        "Must list of choices: 'choices=[\"one\", \"two\", ...]'")) ∧
    (∀ (p : ParameterItem) (cs : List String), p.widget = PARM_TYPE_CHOICE →
      p.choices = some cs → p.postInit = .ok ()) := by
  refine ⟨?_, ?_, ?_, ?_⟩
  · intro label v tooltip; rfl
  · intro label v cs tooltip
    simp only [ParameterItemChoice.make, ParameterItemBase.construct,
      ParameterItemBase.postInit, ParameterItemBase.validate]
    rw [if_pos (by decide), if_neg (by simp)]
    rfl
  · intro p hw hc
    rw [ParameterItem.postInit, if_pos hw, ParameterItem.choiceCheck, if_pos hc]
  · intro p cs hw hc
    rw [ParameterItem.postInit, if_pos hw, ParameterItem.choiceCheck,
      if_neg (by rw [hc]; simp)]

/-- Witness for C6: omitting the choices errors, a concrete list
constructs. -/
theorem claim_C6_witness :
    (ParameterItemChoice.make "color" (.str "") none "" =
      .error (.valueError
        "Must be list of choices: 'choices=[\"one\", \"two\", ...]'")) ∧
    (ParameterItemChoice.make "color" (.str "red") (some ["red", "blue"]) "" =
      .ok ⟨.choice, "color", .str "red", PARM_TYPE_CHOICE, "",
        some ["red", "blue"], none, none⟩) :=
  ⟨claim_C6.1 "color" (.str "") "",
   claim_C6.2.1 "color" (.str "red") ["red", "blue"] ""⟩

/-- C8: A parameter item whose `widget` is none of the four recognized
keys raises ValueError naming the allowed keys; each of the four
recognized keys passes the widget-kind check (construction proceeds to
that kind's validation).  Stated for `ParameterItemBase.__post_init__`
of param_item.py and for `ParameterItem.__post_init__` of
param_editor.py. -/
theorem claim_C8 :
    (∀ p : ParameterItemBase, p.widget ∉ PARM_WIDGET_KEYS →
      p.postInit = .error (.valueError ("Received 'widget=" ++ pyReprStr p.widget ++
        ".  Must be one of " ++
        "['QPW_checkbox', 'QPW_choice', 'QPW_default', 'QPW_index']" ++ "."))) ∧
    (∀ p : ParameterItemBase, p.widget ∈ PARM_WIDGET_KEYS → p.postInit = p.validate) ∧
    (∀ p : ParameterItem, p.widget ∉ PARM_WIDGET_KEYS_PE →
      p.postInit = .error (.valueError ("Received 'widget=" ++ pyReprStr p.widget ++
        ".  Must be one of " ++
        "['QPW_checkbox', 'QPW_choice', 'QPW_index', 'QPW_default']" ++ "."))) ∧
    (∀ p : ParameterItem, p.widget = PARM_TYPE_CHECKBOX → p.postInit = .ok ()) ∧
    (∀ p : ParameterItem, p.widget = PARM_TYPE_CHOICE → p.postInit = p.choiceCheck) ∧
    (∀ p : ParameterItem, p.widget = PARM_TYPE_INDEX → p.postInit = p.indexCheck) ∧
    (∀ p : ParameterItem, p.widget = PARM_TYPE_DEFAULT → p.postInit = .ok ()) := by
  refine ⟨?_, ?_, ?_, ?_, ?_, ?_, ?_⟩
  · intro p hw
    rw [ParameterItemBase.postInit, if_neg hw]
    rw [show pyListRepr PARM_WIDGET_KEYS =
      "['QPW_checkbox', 'QPW_choice', 'QPW_default', 'QPW_index']" from by decide]
  · intro p hw
    rw [ParameterItemBase.postInit, if_pos hw]
  · intro p hw
    have h1 : ¬p.widget = PARM_TYPE_CHOICE := fun he => hw (by rw [he]; decide)
    have h2 : ¬p.widget = PARM_TYPE_INDEX := fun he => hw (by rw [he]; decide)
    rw [ParameterItem.postInit, if_neg h1, if_neg h2, if_pos hw,
      ParameterItem.badWidgetMsg]
    rw [show pyListRepr PARM_WIDGET_KEYS_PE =
      "['QPW_checkbox', 'QPW_choice', 'QPW_index', 'QPW_default']" from by decide]
  · intro p hw
    rw [ParameterItem.postInit, if_neg (by rw [hw]; decide), if_neg (by rw [hw]; decide),
      if_neg (by rw [hw]; decide)]
  · intro p hw
    rw [ParameterItem.postInit, if_pos hw]
  · intro p hw
    rw [ParameterItem.postInit, if_neg (by rw [hw]; decide), if_pos hw]
  · intro p hw
    rw [ParameterItem.postInit, if_neg (by rw [hw]; decide), if_neg (by rw [hw]; decide),
      if_neg (by rw [hw]; decide)]

/-- Witness for C8: a bogus key errors with the message naming the four
allowed keys; the key "QPW_default" passes the kind check. -/
theorem claim_C8_witness :
    ((⟨.text, "x", .int 1, "bogus", "", none, none, none⟩ :
        ParameterItemBase).postInit =
      .error (.valueError ("Received 'widget=" ++ pyReprStr "bogus" ++
        ".  Must be one of " ++
        "['QPW_checkbox', 'QPW_choice', 'QPW_default', 'QPW_index']" ++ "."))) ∧
    ((⟨"x", .int 1, none, "QPW_default", "", none, none, none⟩ :
        ParameterItem).postInit = .ok ()) :=
  ⟨claim_C8.1 ⟨.text, "x", .int 1, "bogus", "", none, none, none⟩ (by decide),
   claim_C8.2.2.2.2.2.2 ⟨"x", .int 1, none, "QPW_default", "", none, none, none⟩ rfl⟩

/-! ### Claims C7 and C10: cancel/ok leave everything alone -/

theorem ParameterEditorWidget.revertEntry_keeps (x y : String × ParameterItem × QtW)
    (h : ParameterEditorWidget.revertEntry x = some y) :
    y.1 = x.1 ∧ y.2.1 = x.2.1 := by
  rw [ParameterEditorWidget.revertEntry] at h
  rcases hb : ParameterEditorWidget.revertWidget x.2.1 x.2.2 with _ | w
  · rw [hb] at h; exact absurd h (by simp)
  · rw [hb, Option.map_some'] at h
    cases h
    exact ⟨rfl, rfl⟩

theorem mapM_revertEntry_keeps :
    ∀ l l2 : List (String × ParameterItem × QtW),
      l.mapM ParameterEditorWidget.revertEntry = some l2 →
      l2.map (fun x => (x.1, x.2.1)) = l.map (fun x => (x.1, x.2.1)) := by
  intro l
  induction l with
  | nil =>
      intro l2 h
      simp only [List.mapM_nil, Option.pure_def, Option.some.injEq] at h
      rw [← h]
  | cons a t ih =>
      intro l2 h
      rw [List.mapM_cons] at h
      simp only [Option.bind_eq_bind, Option.bind_eq_some, Option.pure_def,
        Option.some.injEq] at h
      obtain ⟨b, hb, bs, hbs, rfl⟩ := h
      obtain ⟨hk, hp⟩ := ParameterEditorWidget.revertEntry_keeps a b hb
      simp only [List.map_cons, hk, hp, ih bs hbs]

/-- C7: `do_cancel` returns the empty dictionary, clears the dirty flag,
and leaves every editor widget's value and every stored parameter
unchanged. -/
theorem claim_C7 (e : ParameterEditorWidget) :
    (e.do_cancel).2 = [] ∧ (e.do_cancel).1.dirty = false ∧
    (e.do_cancel).1.editors = e.editors ∧
    (e.do_cancel).1.parameters = e.parameters :=
  ⟨rfl, rfl, rfl, rfl⟩

/-- C10: The `ParameterItem` dataclass is frozen, and indeed no operation
of `ParameterEditorWidget` modifies a parameter: `do_ok` returns the
current widget values and leaves every `original_value` (the whole
parameters dict) unchanged, `do_cancel` does too, and so does a
successful `do_revert`. -/
theorem claim_C10 :
    (∀ e : ParameterEditorWidget, (e.do_ok).1.parameters = e.parameters ∧
      (e.do_ok).2 = e.currentValues ∧ (e.do_ok).1.dirty = false) ∧
    (∀ e : ParameterEditorWidget, (e.do_cancel).1.parameters = e.parameters) ∧
    (∀ e e2 : ParameterEditorWidget, e.do_revert = some e2 →
      e2.parameters = e.parameters) := by
  refine ⟨fun e => ⟨rfl, rfl, rfl⟩, fun e => rfl, ?_⟩
  intro e e2 h
  rw [ParameterEditorWidget.do_revert] at h
  rcases hm : e.entries.mapM ParameterEditorWidget.revertEntry with _ | l2
  · rw [hm] at h; exact absurd h (by simp)
  · rw [hm] at h
    simp only [Option.some_bind, Option.pure_def, Option.some.injEq] at h
    cases h
    exact mapM_revertEntry_keeps e.entries l2 hm

/-- Witness for C10's `do_revert` component at a concrete editor: the
line-edit widget reverts from "x" to the stored "v" and the parameter is
untouched. -/
theorem claim_C10_witness :
    (ParameterEditorWidget.mk
      [("t", ⟨"t", .str "v", none, "QPW_default", "", none, none, none⟩,
        .qlineedit "v")] false).parameters =
    (ParameterEditorWidget.mk
      [("t", ⟨"t", .str "v", none, "QPW_default", "", none, none, none⟩,
        .qlineedit "x")] true).parameters :=
  claim_C10.2.2
    (ParameterEditorWidget.mk
      [("t", ⟨"t", .str "v", none, "QPW_default", "", none, none, none⟩,
        .qlineedit "x")] true)
    (ParameterEditorWidget.mk
      [("t", ⟨"t", .str "v", none, "QPW_default", "", none, none, none⟩,
        .qlineedit "v")] false)
    (by decide)

/-! ### Claim C1: dirty-tracking -/

theorem cvF_pos (y : String × ParameterItemBase × QPWWidget)
    (h : y.2.2.qpw_isChanged y.2.1.value = true) :
    ParameterEditor.cvF y = some (y.1, y.2.2.qpw_get) := by
  unfold ParameterEditor.cvF
  exact if_pos h

theorem cvF_neg (y : String × ParameterItemBase × QPWWidget)
    (h : ¬y.2.2.qpw_isChanged y.2.1.value = true) :
    ParameterEditor.cvF y = none := by
  unfold ParameterEditor.cvF
  exact if_neg h

theorem checkIfDirty_spec (e : ParameterEditor) :
    (e.checkIfDirty.dirty = true ↔ e.checkIfDirty.changedValues ≠ []) ∧
    (e.checkIfDirty.dirty = true ↔
      ∃ x ∈ e.checkIfDirty.entries, x.2.2.qpw_get ≠ some x.2.1.value) := by
  have hd : e.checkIfDirty.dirty = decide (0 < e.changedValues.length) := rfl
  have hcv : e.checkIfDirty.changedValues = e.changedValues := rfl
  have hen : e.checkIfDirty.entries = e.entries := rfl
  constructor
  · rw [hd, hcv, decide_eq_true_eq, List.length_pos]
  · rw [hd, hen, decide_eq_true_eq, List.length_pos, ParameterEditor.changedValues]
    rw [ne_eq, List.filterMap_eq_nil_iff]
    simp only [not_forall]
    constructor
    · rintro ⟨x, hx, hne⟩
      refine ⟨x, hx, ?_⟩
      intro heq
      apply hne
      apply cvF_neg
      simp [QPWWidget.qpw_isChanged, heq]
    · rintro ⟨x, hx, hne⟩
      refine ⟨x, hx, ?_⟩
      rw [cvF_pos x (by simpa [QPWWidget.qpw_isChanged, bne_iff_ne] using hne)]
      simp

/-- C1: After any user edit of any editor widget, `checkIfDirty` has run,
so the dirty flag holds exactly when `changedValues()` is non-empty,
i.e. exactly when at least one editor widget's marshaled current value
differs from its parameter's supplied value. -/
theorem claim_C1 (e : ParameterEditor) (k : String) (a : EditAction) :
    ((e.userEdit k a).dirty = true ↔ (e.userEdit k a).changedValues ≠ []) ∧
    ((e.userEdit k a).dirty = true ↔
      ∃ x ∈ (e.userEdit k a).entries, x.2.2.qpw_get ≠ some x.2.1.value) :=
  checkIfDirty_spec _

/-! ### Claim C3: do_accept -/

theorem lookup_changedValues_none :
    ∀ (l : List (String × ParameterItemBase × QPWWidget)) (k : String),
      k ∉ l.map (fun x => x.1) →
      List.lookup k (l.filterMap ParameterEditor.cvF) = none := by
  intro l
  induction l with
  | nil => intro k _; rfl
  | cons a t ih =>
      intro k hk
      simp only [List.map_cons, List.mem_cons, not_or] at hk
      obtain ⟨hka, hkt⟩ := hk
      have hbeq : (k == a.1) = false := beq_eq_false_iff_ne.mpr hka
      by_cases hch : a.2.2.qpw_isChanged a.2.1.value = true
      · rw [List.filterMap_cons_some (cvF_pos a hch), List.lookup_cons, hbeq]
        exact ih k hkt
      · rw [List.filterMap_cons_none (cvF_neg a hch)]
        exact ih k hkt

theorem lookup_changedValues (e : ParameterEditor)
    (hnd : (e.entries.map (fun x => x.1)).Nodup) :
    ∀ x ∈ e.entries,
      List.lookup x.1 e.changedValues =
        if x.2.2.qpw_isChanged x.2.1.value then some x.2.2.qpw_get else none := by
  rw [ParameterEditor.changedValues]
  revert hnd
  generalize e.entries = l
  induction l with
  | nil => intro _ x hx; exact absurd hx (List.not_mem_nil x)
  | cons a t ih =>
      intro hnd x hx
      rw [List.map_cons, List.nodup_cons] at hnd
      obtain ⟨ha, ht⟩ := hnd
      rcases List.mem_cons.mp hx with rfl | hxt
      · by_cases hch : x.2.2.qpw_isChanged x.2.1.value = true
        · rw [List.filterMap_cons_some (cvF_pos x hch), if_pos hch]
          rw [List.lookup_cons]
          simp
        · rw [List.filterMap_cons_none (cvF_neg x hch), if_neg hch]
          exact lookup_changedValues_none t x.1 ha
      · have hxk : x.1 ≠ a.1 := by
          intro he
          exact ha (he ▸ List.mem_map_of_mem (fun y => y.1) hxt)
        have hbeq : (x.1 == a.1) = false := beq_eq_false_iff_ne.mpr hxk
        by_cases hch : a.2.2.qpw_isChanged a.2.1.value = true
        · rw [List.filterMap_cons_some (cvF_pos a hch), List.lookup_cons, hbeq]
          exact ih ht x hxt
        · rw [List.filterMap_cons_none (cvF_neg a hch)]
          exact ih ht x hxt

/-- C3: `do_accept` rewrites the stored `value` of exactly the changed
parameters to their editor widget's marshaled current value, leaves all
unchanged parameters untouched, and clears the dirty flag.  (Keys are
unique, as in a Python dict.) -/
theorem claim_C3 (e : ParameterEditor)
    (hnd : (e.entries.map (fun x => x.1)).Nodup) :
    (e.do_accept).dirty = false ∧
    (e.do_accept).entries = e.entries.map (fun x =>
      match x.2.2.qpw_get with
      | some v =>
          if x.2.2.qpw_isChanged x.2.1.value then
            (x.1, { x.2.1 with value := v }, x.2.2)
          else x
      | none => x) := by
  refine ⟨rfl, ?_⟩
  rw [ParameterEditor.do_accept]
  apply List.map_congr_left
  intro x hx
  rw [lookup_changedValues e hnd x hx]
  by_cases hch : x.2.2.qpw_isChanged x.2.1.value = true
  · rw [if_pos hch]
    rcases hg : x.2.2.qpw_get with _ | v <;> simp [hch, hg]
  · rw [if_neg hch]
    rcases hg : x.2.2.qpw_get with _ | v <;> simp [hch, hg]

/-- Witness for C3 at a concrete editor: the text widget shows "7", the
stored value is the int 5, so accepting stores the int 7 and clears the
flag; keys are unique. -/
theorem claim_C3_witness :
    ((ParameterEditor.mk
        [("n", ⟨.text, "n", .int 5, "QPW_default", "", none, none, none⟩,
          .text ⟨"7", some .int⟩)] true).do_accept).dirty = false ∧
    ((ParameterEditor.mk
        [("n", ⟨.text, "n", .int 5, "QPW_default", "", none, none, none⟩,
          .text ⟨"7", some .int⟩)] true).do_accept).entries =
      [("n", ⟨.text, "n", .int 5, "QPW_default", "", none, none, none⟩,
        QPWWidget.text ⟨"7", some .int⟩)].map (fun x =>
        match x.2.2.qpw_get with
        | some v =>
            if x.2.2.qpw_isChanged x.2.1.value then
              (x.1, { x.2.1 with value := v }, x.2.2)
            else x
        | none => x) :=
  claim_C3
    (ParameterEditor.mk
      [("n", ⟨.text, "n", .int 5, "QPW_default", "", none, none, none⟩,
        .text ⟨"7", some .int⟩)] true)
    (by decide)

/-! ### Claim C4: do_reset -/

/-- A parameter whose stored value its editor widget represents
faithfully: a bool for a checkbox; for a combo box an int or string whose
string form is among the items, with `original_type` unset or matching;
an int within the range for a spin box; an int or string for a line
edit. -/
def widgetResetOK (p : ParameterItemBase) : QPWWidget → Prop
  | .checkbox _ => p.value.type = .bool
  | .choice w => typeCompat w.original_type p.value ∧ w.accepts p.value
  | .index w => typeCompat w.original_type p.value ∧ w.accepts p.value
  | .text w => typeCompat w.original_type p.value ∧ QPW_Text.accepts p.value

instance typeCompat.dec (ot : Option PyType) (v : PyVal) : Decidable (typeCompat ot v) :=
  inferInstanceAs (Decidable (ot = none ∨ ot = some v.type))

instance QPW_Choice.accepts.dec (w : QPW_Choice) (v : PyVal) : Decidable (w.accepts v) :=
  inferInstanceAs (Decidable ((v.type = .int ∨ v.type = .str) ∧ v.pyStr ∈ w.items))

instance QPW_Text.accepts.dec (v : PyVal) : Decidable (QPW_Text.accepts v) :=
  inferInstanceAs (Decidable (v.type = .int ∨ v.type = .str))

instance widgetResetOK.dec (p : ParameterItemBase) :
    (w : QPWWidget) → Decidable (widgetResetOK p w)
  | .checkbox _ => inferInstanceAs (Decidable (p.value.type = .bool))
  | .choice w =>
      inferInstanceAs (Decidable (typeCompat w.original_type p.value ∧ w.accepts p.value))
  | .index w =>
      inferInstanceAs (Decidable (typeCompat w.original_type p.value ∧ w.accepts p.value))
  | .text w =>
      inferInstanceAs
        (Decidable (typeCompat w.original_type p.value ∧ QPW_Text.accepts p.value))

/-- `widgetResetOK` for an editor entry. -/
def entryResetOK (x : String × ParameterItemBase × QPWWidget) : Prop :=
  widgetResetOK x.2.1 x.2.2

instance entryResetOK.dec (x : String × ParameterItemBase × QPWWidget) :
    Decidable (entryResetOK x) := by
  unfold entryResetOK
  infer_instance

theorem qpw_set_roundtrip (p : ParameterItemBase) (w : QPWWidget)
    (hok : widgetResetOK p w) :
    ∃ w2 : QPWWidget, w.qpw_set p.value = some w2 ∧ w2.qpw_get = some p.value := by
  rcases w with w | w | w | w
  · rw [widgetResetOK] at hok
    rcases hv : p.value with n | s | b
    · exact absurd (hv ▸ hok) (by simp [PyVal.type])
    · exact absurd (hv ▸ hok) (by simp [PyVal.type])
    · exact ⟨.checkbox (w.qpw_set (.bool b)), rfl, roundtrip_checkbox w b⟩
  · rw [widgetResetOK] at hok
    exact ⟨.choice (w.qpw_set p.value), rfl,
      roundtrip_choice w p.value hok.2 hok.1⟩
  · rw [widgetResetOK] at hok
    obtain ⟨w2, hset, hget⟩ := roundtrip_index w p.value hok.2 hok.1
    exact ⟨.index w2, by rw [QPWWidget.qpw_set, hset]; rfl, hget⟩
  · rw [widgetResetOK] at hok
    exact ⟨.text (w.qpw_set p.value), rfl,
      roundtrip_text w p.value hok.2 hok.1⟩

theorem do_reset_entries :
    ∀ l : List (String × ParameterItemBase × QPWWidget),
      (∀ x ∈ l, entryResetOK x) →
      ∃ l2 : List (String × ParameterItemBase × QPWWidget),
        l.mapM (fun x =>
          (x.2.2.qpw_set x.2.1.value).map (fun w => (x.1, x.2.1, w))) = some l2 ∧
        l2.map (fun x => (x.1, x.2.2.qpw_get)) =
          l.map (fun x => (x.1, some x.2.1.value)) ∧
        l2.map (fun x => (x.1, x.2.1)) = l.map (fun x => (x.1, x.2.1)) := by
  intro l
  induction l with
  | nil => intro _; exact ⟨[], rfl, rfl, rfl⟩
  | cons a t ih =>
      intro hwf
      obtain ⟨l2t, hm, hv, hp⟩ := ih (fun x hx => hwf x (List.mem_cons_of_mem a hx))
      have ha := hwf a (List.mem_cons_self a t)
      obtain ⟨w2, hset, hget⟩ := qpw_set_roundtrip a.2.1 a.2.2 ha
      refine ⟨(a.1, a.2.1, w2) :: l2t, ?_, ?_, ?_⟩
      · rw [List.mapM_cons]
        simp only [hset, Option.map_some', Option.bind_eq_bind, Option.some_bind, hm,
          Option.pure_def, Option.some.injEq]
      · simp only [List.map_cons, hget, hv]
      · simp only [List.map_cons, hp]

/-- Counterexample to C4 as stated: a validated text parameter whose
stored value is the bool `False` (the dataclass does not restrict value
types).  `do_reset` writes the text "False" into the line edit and fixes
`original_type = bool`, so `values()` marshals it back as `bool("False")
= True`: `values()` does not return the stored parameter values. -/
theorem claim_C4_counterexample :
    ∃ e : ParameterEditor,
      ParameterItemText.make "note" (.bool false) "" =
        .ok ⟨.text, "note", .bool false, "QPW_default", "", none, none, none⟩ ∧
      ParameterEditor.setup
        [("note", ⟨.text, "note", .bool false, "QPW_default", "", none, none, none⟩)] =
        some e ∧
      e.do_reset = some e ∧
      e.dirty = false ∧
      e.values = [("note", some (.bool true))] ∧
      e.values ≠ e.parameters.map (fun x => (x.1, some x.2.value)) := by
  refine ⟨ParameterEditor.mk
    [("note", ⟨.text, "note", .bool false, "QPW_default", "", none, none, none⟩,
      .text ⟨"False", some .bool⟩)] false, rfl, rfl, rfl, rfl, rfl, by decide⟩

/-- C4 amended: `do_reset` sets every editor widget from its parameter's
stored value and clears the dirty flag, and the stored parameters are
unchanged; provided every parameter's stored value is faithfully
representable by its widget (`entryResetOK`), `values()` afterwards
returns exactly the stored parameter values, each re-marshaled through
its original type. -/
theorem claim_C4_amended (e : ParameterEditor)
    (hwf : ∀ x ∈ e.entries, entryResetOK x) :
    ∃ e2 : ParameterEditor, e.do_reset = some e2 ∧
      e2.values = e.entries.map (fun x => (x.1, some x.2.1.value)) ∧
      e2.dirty = false ∧
      e2.parameters = e.parameters := by
  obtain ⟨l2, hm, hv, hp⟩ := do_reset_entries e.entries hwf
  refine ⟨⟨l2, false⟩, ?_, hv, rfl, ?_⟩
  · rw [ParameterEditor.do_reset, hm]
    rfl
  · rw [ParameterEditor.parameters, ParameterEditor.parameters]
    exact hp

/-- Witness for the amended C4 at a concrete editor holding one int text
parameter and one string choice parameter, both representable. -/
theorem claim_C4_amended_witness :
    ∃ e2 : ParameterEditor,
      (ParameterEditor.mk
        [("n", ⟨.text, "n", .int 5, "QPW_default", "", none, none, none⟩,
          .text ⟨"", none⟩),
         ("c", ⟨.choice, "c", .str "red", "QPW_choice", "", some ["red", "blue"],
          none, none⟩, .choice ⟨["red", "blue"], "blue", none⟩)] true).do_reset =
        some e2 ∧
      e2.values =
        (ParameterEditor.mk
          [("n", ⟨.text, "n", .int 5, "QPW_default", "", none, none, none⟩,
            .text ⟨"", none⟩),
           ("c", ⟨.choice, "c", .str "red", "QPW_choice", "", some ["red", "blue"],
            none, none⟩, .choice ⟨["red", "blue"], "blue", none⟩)] true).entries.map
          (fun x => (x.1, some x.2.1.value)) ∧
      e2.dirty = false ∧
      e2.parameters =
        (ParameterEditor.mk
          [("n", ⟨.text, "n", .int 5, "QPW_default", "", none, none, none⟩,
            .text ⟨"", none⟩),
           ("c", ⟨.choice, "c", .str "red", "QPW_choice", "", some ["red", "blue"],
            none, none⟩, .choice ⟨["red", "blue"], "blue", none⟩)] true).parameters :=
  claim_C4_amended
    (ParameterEditor.mk
      [("n", ⟨.text, "n", .int 5, "QPW_default", "", none, none, none⟩,
        .text ⟨"", none⟩),
       ("c", ⟨.choice, "c", .str "red", "QPW_choice", "", some ["red", "blue"],
        none, none⟩, .choice ⟨["red", "blue"], "blue", none⟩)] true)
    (by decide)

end PyQParamWidget
